import Mathlib

/-!
Verification of the request-parameter normalization layer of
`src/lib/llm/src/protocols/openai.rs`.

Scalar sampling parameters (`f32` in the source) are embedded as rationals
`ℚ`: the validator only compares values, and the scaler's arithmetic is
stated by the spec in exact arithmetic; every concrete constant appearing in
the claims is an exact value.  Fallible functions (`anyhow::Result`) become
`Except` with structured error values recording what the source's `bail!`
messages record (the offending value and the range bounds).
-/

/-- Vendor extension data (`nvext::NvExt`) as consumed by this module: the
`greed_sampling` and `ignore_eos` optional flags read in
`extract_sampling_options` and `extract_stop_conditions`. -/
structure NvExt where
  greed_sampling : Option Bool
  ignore_eos : Option Bool
deriving DecidableEq, Repr

/-- Error raised by `validate_range`'s `bail!`, carrying the offending value
and the two range bounds that the source formats into the message
`"Value {} is out of range [{}, {}]"`. -/
inductive ValidationError where
  | valueOutOfRange (value lo hi : ℚ)
deriving DecidableEq, Repr

/-- `validate_range` from `openai.rs`: `Ok(None)` when the value is absent,
an out-of-range error when `value < range.0 || value > range.1`, and
`Ok(Some(value))` otherwise. -/
def validate_range (value : Option ℚ) (range : ℚ × ℚ) : Except ValidationError (Option ℚ) :=
  match value with
  | none => Except.ok none
  | some v =>
      if v < range.1 ∨ v > range.2 then
        Except.error (ValidationError.valueOutOfRange v range.1 range.2)
      else
        Except.ok (some v)

/-- Error raised by `scale_value`: `"dst range is 0"` or `"src range is 0"`. -/
inductive ScaleError where
  | dstRangeZero
  | srcRangeZero
deriving DecidableEq, Repr

/-- `scale_value` from `openai.rs`: linear rescaling of `value` from the
`src` range to the `dst` range, failing when either range has zero width
(the destination width is tested first, as in the source). -/
def scale_value (value : ℚ) (src dst : ℚ × ℚ) : Except ScaleError ℚ :=
  let dst_range := dst.2 - dst.1
  let src_range := src.2 - src.1
  if dst_range = 0 then Except.error ScaleError.dstRangeZero
  else if src_range = 0 then Except.error ScaleError.srcRangeZero
  else Except.ok (dst.1 + (value - src.1) / src_range * dst_range)

def MIN_TEMPERATURE : ℚ := 0

def MAX_TEMPERATURE : ℚ := 2

def TEMPERATURE_RANGE : ℚ × ℚ := (MIN_TEMPERATURE, MAX_TEMPERATURE)

def MIN_TOP_P : ℚ := 0

def MAX_TOP_P : ℚ := 1

def TOP_P_RANGE : ℚ × ℚ := (MIN_TOP_P, MAX_TOP_P)

def MIN_FREQUENCY_PENALTY : ℚ := -2

def MAX_FREQUENCY_PENALTY : ℚ := 2

def FREQUENCY_PENALTY_RANGE : ℚ × ℚ := (MIN_FREQUENCY_PENALTY, MAX_FREQUENCY_PENALTY)

def MIN_PRESENCE_PENALTY : ℚ := -2

def MAX_PRESENCE_PENALTY : ℚ := 2

def PRESENCE_PENALTY_RANGE : ℚ × ℚ := (MIN_PRESENCE_PENALTY, MAX_PRESENCE_PENALTY)

/-- `common::SamplingOptions`, with exactly the fields the construction site
in `extract_sampling_options` assigns (the struct's own file is outside the
shown sources; the field list and which fields are set to `None` are fixed by
that construction). -/
structure SamplingOptions where
  n : Option ℕ
  best_of : Option ℕ
  frequency_penalty : Option ℚ
  presence_penalty : Option ℚ
  repetition_penalty : Option ℚ
  temperature : Option ℚ
  top_p : Option ℚ
  top_k : Option ℤ
  min_p : Option ℚ
  seed : Option ℕ
  use_beam_search : Option Bool
  length_penalty : Option ℚ
deriving DecidableEq, Repr

/-- A request type implementing `OpenAISamplingOptionsProvider`: the four
optional scalar accessors plus the optional vendor extension. -/
structure SamplingRequest where
  temperature : Option ℚ
  top_p : Option ℚ
  frequency_penalty : Option ℚ
  presence_penalty : Option ℚ
  nvext : Option NvExt
deriving DecidableEq, Repr

/-- The `anyhow` error produced by `extract_sampling_options`: each
`map_err` wraps the `validate_range` error with the name of the field being
validated (`"Error validating temperature: {}"`, etc.). -/
inductive SamplingError where
  | temperature (e : ValidationError)
  | top_p (e : ValidationError)
  | frequency_penalty (e : ValidationError)
  | presence_penalty (e : ValidationError)
deriving DecidableEq, Repr

/-- The `greedy` flag computed inside `extract_sampling_options`:
`nvext.greed_sampling.unwrap_or(false)` when the vendor extension is
present, `false` otherwise (the `if let Some(nvext)` branch not taken). -/
def greedyFlag (req : SamplingRequest) : Bool :=
  match req.nvext with
  | some nv => nv.greed_sampling.getD false
  | none => false

/-- `extract_sampling_options` from `openai.rs`: validate the four scalars
in order (temperature, top_p, frequency_penalty, presence_penalty), with
the `?` operator short-circuiting on the first failure; then, when the
vendor extension's `greed_sampling` flag defaults-or-reads to `true`, reset
`temperature` and `top_p` to `None`; finally build the canonical
`SamplingOptions` with every other field `None`. -/
def extract_sampling_options (req : SamplingRequest) : Except SamplingError SamplingOptions :=
  match validate_range req.temperature TEMPERATURE_RANGE with
  | Except.error e => Except.error (SamplingError.temperature e)
  | Except.ok temperature =>
    match validate_range req.top_p TOP_P_RANGE with
    | Except.error e => Except.error (SamplingError.top_p e)
    | Except.ok top_p =>
      match validate_range req.frequency_penalty FREQUENCY_PENALTY_RANGE with
      | Except.error e => Except.error (SamplingError.frequency_penalty e)
      | Except.ok frequency_penalty =>
        match validate_range req.presence_penalty PRESENCE_PENALTY_RANGE with
        | Except.error e => Except.error (SamplingError.presence_penalty e)
        | Except.ok presence_penalty =>
          let greedy : Bool := greedyFlag req
          Except.ok
            { n := none
              best_of := none
              frequency_penalty := frequency_penalty
              presence_penalty := presence_penalty
              repetition_penalty := none
              temperature := if greedy then none else temperature
              top_p := if greedy then none else top_p
              top_k := none
              min_p := none
              seed := none
              use_beam_search := none
              length_penalty := none }

/-- `common::StopConditions`, with exactly the fields assigned at the
construction site in `extract_stop_conditions`. -/
structure StopConditions where
  max_tokens : Option ℕ
  min_tokens : Option ℕ
  stop : Option (List String)
  stop_token_ids_hidden : Option (List ℕ)
  ignore_eos : Option Bool
deriving DecidableEq, Repr

/-- A request type implementing `OpenAIStopConditionsProvider`. -/
structure StopRequest where
  max_tokens : Option ℕ
  min_tokens : Option ℕ
  stop : Option (List String)
  nvext : Option NvExt
deriving DecidableEq, Repr

/-- The error raised by `extract_stop_conditions`'s `bail!`
(`"stop conditions must be less than 4"`). -/
inductive StopError where
  | tooManyStopSequences
deriving DecidableEq, Repr

/-- The `ignore_eos` value computed inside `extract_stop_conditions`:
starts as `None` and is overwritten with `nvext.ignore_eos` when the vendor
extension is present. -/
def ignoreEosFlag (req : StopRequest) : Option Bool :=
  match req.nvext with
  | some nv => nv.ignore_eos
  | none => none

/-- `extract_stop_conditions` from `openai.rs`: fail when more than 4 stop
strings are present, read `ignore_eos` from the vendor extension, and build
the canonical `StopConditions` with `stop_token_ids_hidden` set to `None`. -/
def extract_stop_conditions (req : StopRequest) : Except StopError StopConditions :=
  let ignore_eos : Option Bool := ignoreEosFlag req
  match req.stop with
  | some l =>
      if l.length > 4 then
        Except.error StopError.tooManyStopSequences
      else
        Except.ok
          { max_tokens := req.max_tokens
            min_tokens := req.min_tokens
            stop := some l
            stop_token_ids_hidden := none
            ignore_eos := ignore_eos }
  | none =>
      Except.ok
        { max_tokens := req.max_tokens
          min_tokens := req.min_tokens
          stop := none
          stop_token_ids_hidden := none
          ignore_eos := ignore_eos }

/-- An optional scalar lies within the inclusive range whenever present. -/
def inRangeOpt (v : Option ℚ) (range : ℚ × ℚ) : Prop :=
  ∀ x, v = some x → range.1 ≤ x ∧ x ≤ range.2

instance (v : Option ℚ) (range : ℚ × ℚ) : Decidable (inRangeOpt v range) := by
  unfold inRangeOpt
  cases v with
  | none => exact isTrue (by simp)
  | some x =>
      by_cases h : range.1 ≤ x ∧ x ≤ range.2
      · exact isTrue (by simpa using h)
      · exact isFalse (by simpa using h)

/-! ## Helper lemmas about the validator -/

theorem validate_range_none (range : ℚ × ℚ) :
    validate_range none range = Except.ok none := rfl

theorem validate_range_some_ok (v : ℚ) (range : ℚ × ℚ)
    (h1 : range.1 ≤ v) (h2 : v ≤ range.2) :
    validate_range (some v) range = Except.ok (some v) := by
  have h : ¬(v < range.1 ∨ v > range.2) := by
    push_neg
    exact ⟨h1, h2⟩
  simp only [validate_range, if_neg h]

theorem validate_range_some_err (v : ℚ) (range : ℚ × ℚ)
    (h : v < range.1 ∨ v > range.2) :
    validate_range (some v) range
      = Except.error (ValidationError.valueOutOfRange v range.1 range.2) := by
  simp only [validate_range, if_pos h]

theorem validate_range_ok_elim (o w : Option ℚ) (range : ℚ × ℚ)
    (h : validate_range o range = Except.ok w) :
    w = o ∧ inRangeOpt w range := by
  cases o with
  | none =>
      simp only [validate_range] at h
      cases h
      exact ⟨rfl, by simp [inRangeOpt]⟩
  | some v =>
      simp only [validate_range] at h
      by_cases hc : v < range.1 ∨ v > range.2
      · rw [if_pos hc] at h
        cases h
      · rw [if_neg hc] at h
        cases h
        push_neg at hc
        refine ⟨rfl, ?_⟩
        intro x hx
        cases hx
        exact hc

theorem validate_range_of_inRangeOpt (o : Option ℚ) (range : ℚ × ℚ)
    (h : inRangeOpt o range) :
    validate_range o range = Except.ok o := by
  cases o with
  | none => rfl
  | some v => exact validate_range_some_ok v range (h v rfl).1 (h v rfl).2

/-! ## C1, C9: the range validator -/

/-- C1: for every value `v` and inclusive range `(lo, hi)` with `lo ≤ hi`,
`validate_range (some v) (lo, hi)` succeeds returning `some v` iff
`lo ≤ v ≤ hi`, and otherwise fails with the out-of-range error carrying `v`
and the bounds; `validate_range none (lo, hi)` always succeeds with `none`. -/
theorem C1_validate_range_correct (v lo hi : ℚ) (h : lo ≤ hi) :
    (validate_range (some v) (lo, hi) = Except.ok (some v) ↔ lo ≤ v ∧ v ≤ hi)
    ∧ (¬(lo ≤ v ∧ v ≤ hi) →
        validate_range (some v) (lo, hi)
          = Except.error (ValidationError.valueOutOfRange v lo hi))
    ∧ validate_range none (lo, hi) = Except.ok none := by
  refine ⟨⟨fun hok => ?_, fun hin => validate_range_some_ok v (lo, hi) hin.1 hin.2⟩,
    fun hout => ?_, rfl⟩
  · have := validate_range_ok_elim (some v) (some v) (lo, hi) hok
    exact this.2 v rfl
  · push_neg at hout
    rcases lt_or_le v lo with hlt | hge
    · exact validate_range_some_err v (lo, hi) (Or.inl hlt)
    · exact validate_range_some_err v (lo, hi) (Or.inr (hout hge))

/-- Witness for C1 at `v = 3`, `(lo, hi) = (0, 2)`. -/
theorem C1_validate_range_correct_witness :
    validate_range (some 3) ((0 : ℚ), 2)
      = Except.error (ValidationError.valueOutOfRange 3 0 2) :=
  (C1_validate_range_correct 3 0 2 (by norm_num)).2.1 (by norm_num)

/-- C9: for an inverted range `(lo, hi)` with `lo > hi`,
`validate_range (some v) (lo, hi)` fails for every `v`, while
`validate_range none (lo, hi)` still succeeds with `none` — well-formedness
of the range itself is never checked. -/
theorem C9_inverted_range (lo hi v : ℚ) (h : hi < lo) :
    validate_range (some v) (lo, hi)
      = Except.error (ValidationError.valueOutOfRange v lo hi)
    ∧ validate_range none (lo, hi) = Except.ok none := by
  refine ⟨?_, rfl⟩
  rcases lt_or_le v lo with hlt | hge
  · exact validate_range_some_err v (lo, hi) (Or.inl hlt)
  · exact validate_range_some_err v (lo, hi) (Or.inr (lt_of_lt_of_le h hge))

/-- Witness for C9 at `v = 1`, `(lo, hi) = (2, 0)`. -/
theorem C9_inverted_range_witness :
    validate_range (some 1) ((2 : ℚ), 0)
      = Except.error (ValidationError.valueOutOfRange 1 2 0)
    ∧ validate_range none ((2 : ℚ), 0) = Except.ok none :=
  C9_inverted_range 2 0 1 (by norm_num)

/-! ## C2, C7: the range scaler -/

/-- C2: for nondegenerate ranges, `scale_value` succeeds and returns exactly
`d0 + ((v - s0) / (s1 - s0)) * (d1 - d0)`; in particular it maps the source
endpoints to the destination endpoints, and
`scale_value (-1) (-2, 2) (1, 2) = 1.25`. -/
theorem C2_scale_value_formula :
    (∀ v s0 s1 d0 d1 : ℚ, s1 ≠ s0 → d1 ≠ d0 →
      scale_value v (s0, s1) (d0, d1)
          = Except.ok (d0 + (v - s0) / (s1 - s0) * (d1 - d0))
        ∧ scale_value s0 (s0, s1) (d0, d1) = Except.ok d0
        ∧ scale_value s1 (s0, s1) (d0, d1) = Except.ok d1)
    ∧ scale_value (-1) (-2, 2) (1, 2) = Except.ok (5 / 4) := by
  have key : ∀ v s0 s1 d0 d1 : ℚ, s1 ≠ s0 → d1 ≠ d0 →
      scale_value v (s0, s1) (d0, d1)
        = Except.ok (d0 + (v - s0) / (s1 - s0) * (d1 - d0)) := by
    intro v s0 s1 d0 d1 hs hd
    have hs' : s1 - s0 ≠ 0 := sub_ne_zero.mpr hs
    have hd' : d1 - d0 ≠ 0 := sub_ne_zero.mpr hd
    simp only [scale_value, if_neg hd', if_neg hs']
  refine ⟨fun v s0 s1 d0 d1 hs hd => ⟨key v s0 s1 d0 d1 hs hd, ?_, ?_⟩, ?_⟩
  · rw [key s0 s0 s1 d0 d1 hs hd]
    norm_num
  · rw [key s1 s0 s1 d0 d1 hs hd]
    have hs' : s1 - s0 ≠ 0 := sub_ne_zero.mpr hs
    rw [div_self hs']
    norm_num
  · rw [key (-1) (-2) 2 1 2 (by norm_num) (by norm_num)]
    norm_num

/-- Witness for C2: the universally quantified part applied at
`v = 3`, `src = (0, 1)`, `dst = (0, 2)`. -/
theorem C2_scale_value_formula_witness :
    scale_value 3 ((0 : ℚ), 1) ((0 : ℚ), 2) = Except.ok (0 + (3 - 0) / (1 - 0) * (2 - 0)) :=
  (C2_scale_value_formula.1 3 0 1 0 2 (by norm_num) (by norm_num)).1

/-- C7: `scale_value` fails exactly when the source range or the destination
range has zero width; a degenerate range is never defaulted to a result. -/
theorem C7_scale_value_error_iff (v s0 s1 d0 d1 : ℚ) :
    (∃ e, scale_value v (s0, s1) (d0, d1) = Except.error e)
      ↔ (s1 - s0 = 0 ∨ d1 - d0 = 0) := by
  constructor
  · rintro ⟨e, he⟩
    by_contra hcon
    push_neg at hcon
    simp only [scale_value, if_neg hcon.2, if_neg hcon.1] at he
    exact Except.noConfusion he
  · rintro (hs | hd)
    · by_cases hd : d1 - d0 = 0
      · exact ⟨ScaleError.dstRangeZero, by simp only [scale_value, if_pos hd]⟩
      · exact ⟨ScaleError.srcRangeZero, by simp only [scale_value, if_neg hd, if_pos hs]⟩
    · exact ⟨ScaleError.dstRangeZero, by simp only [scale_value, if_pos hd]⟩

/-! ## Helper lemmas about the sampling extractor -/

/-- When all four scalars are absent-or-in-range, the extractor succeeds and
produces exactly the record built at the construction site. -/
theorem extract_sampling_options_ok (req : SamplingRequest)
    (ht : inRangeOpt req.temperature TEMPERATURE_RANGE)
    (hp : inRangeOpt req.top_p TOP_P_RANGE)
    (hf : inRangeOpt req.frequency_penalty FREQUENCY_PENALTY_RANGE)
    (hpe : inRangeOpt req.presence_penalty PRESENCE_PENALTY_RANGE) :
    extract_sampling_options req = Except.ok
      { n := none
        best_of := none
        frequency_penalty := req.frequency_penalty
        presence_penalty := req.presence_penalty
        repetition_penalty := none
        temperature := if greedyFlag req then none else req.temperature
        top_p := if greedyFlag req then none else req.top_p
        top_k := none
        min_p := none
        seed := none
        use_beam_search := none
        length_penalty := none } := by
  unfold extract_sampling_options
  rw [validate_range_of_inRangeOpt _ _ ht, validate_range_of_inRangeOpt _ _ hp,
    validate_range_of_inRangeOpt _ _ hf, validate_range_of_inRangeOpt _ _ hpe]

/-- Short-circuit at the temperature validation. -/
theorem extract_sampling_options_err_temperature (req : SamplingRequest) (e : ValidationError)
    (h : validate_range req.temperature TEMPERATURE_RANGE = Except.error e) :
    extract_sampling_options req = Except.error (SamplingError.temperature e) := by
  unfold extract_sampling_options
  rw [h]

/-- Short-circuit at the top_p validation. -/
theorem extract_sampling_options_err_top_p (req : SamplingRequest) (w : Option ℚ)
    (e : ValidationError)
    (h1 : validate_range req.temperature TEMPERATURE_RANGE = Except.ok w)
    (h : validate_range req.top_p TOP_P_RANGE = Except.error e) :
    extract_sampling_options req = Except.error (SamplingError.top_p e) := by
  unfold extract_sampling_options
  rw [h1, h]

/-- Short-circuit at the frequency_penalty validation. -/
theorem extract_sampling_options_err_frequency (req : SamplingRequest) (w1 w2 : Option ℚ)
    (e : ValidationError)
    (h1 : validate_range req.temperature TEMPERATURE_RANGE = Except.ok w1)
    (h2 : validate_range req.top_p TOP_P_RANGE = Except.ok w2)
    (h : validate_range req.frequency_penalty FREQUENCY_PENALTY_RANGE = Except.error e) :
    extract_sampling_options req = Except.error (SamplingError.frequency_penalty e) := by
  unfold extract_sampling_options
  rw [h1, h2, h]

/-- Short-circuit at the presence_penalty validation. -/
theorem extract_sampling_options_err_presence (req : SamplingRequest) (w1 w2 w3 : Option ℚ)
    (e : ValidationError)
    (h1 : validate_range req.temperature TEMPERATURE_RANGE = Except.ok w1)
    (h2 : validate_range req.top_p TOP_P_RANGE = Except.ok w2)
    (h3 : validate_range req.frequency_penalty FREQUENCY_PENALTY_RANGE = Except.ok w3)
    (h : validate_range req.presence_penalty PRESENCE_PENALTY_RANGE = Except.error e) :
    extract_sampling_options req = Except.error (SamplingError.presence_penalty e) := by
  unfold extract_sampling_options
  rw [h1, h2, h3, h]

/-- Any successful extraction arises from four successful validations and
yields exactly the record built at the construction site. -/
theorem extract_sampling_options_ok_elim (req : SamplingRequest) (opts : SamplingOptions)
    (h : extract_sampling_options req = Except.ok opts) :
    inRangeOpt req.temperature TEMPERATURE_RANGE
    ∧ inRangeOpt req.top_p TOP_P_RANGE
    ∧ inRangeOpt req.frequency_penalty FREQUENCY_PENALTY_RANGE
    ∧ inRangeOpt req.presence_penalty PRESENCE_PENALTY_RANGE
    ∧ opts = { n := none
               best_of := none
               frequency_penalty := req.frequency_penalty
               presence_penalty := req.presence_penalty
               repetition_penalty := none
               temperature := if greedyFlag req then none else req.temperature
               top_p := if greedyFlag req then none else req.top_p
               top_k := none
               min_p := none
               seed := none
               use_beam_search := none
               length_penalty := none } := by
  unfold extract_sampling_options at h
  cases hval1 : validate_range req.temperature TEMPERATURE_RANGE with
  | error e => rw [hval1] at h; exact absurd h (by simp)
  | ok w1 =>
  rw [hval1] at h
  cases hval2 : validate_range req.top_p TOP_P_RANGE with
  | error e => rw [hval2] at h; exact absurd h (by simp)
  | ok w2 =>
  rw [hval2] at h
  cases hval3 : validate_range req.frequency_penalty FREQUENCY_PENALTY_RANGE with
  | error e => rw [hval3] at h; exact absurd h (by simp)
  | ok w3 =>
  rw [hval3] at h
  cases hval4 : validate_range req.presence_penalty PRESENCE_PENALTY_RANGE with
  | error e => rw [hval4] at h; exact absurd h (by simp)
  | ok w4 =>
  rw [hval4] at h
  simp only [Except.ok.injEq] at h
  obtain ⟨hw1, hr1⟩ := validate_range_ok_elim _ _ _ hval1
  obtain ⟨hw2, hr2⟩ := validate_range_ok_elim _ _ _ hval2
  obtain ⟨hw3, hr3⟩ := validate_range_ok_elim _ _ _ hval3
  obtain ⟨hw4, hr4⟩ := validate_range_ok_elim _ _ _ hval4
  subst hw1 hw2 hw3 hw4
  exact ⟨hr1, hr2, hr3, hr4, h.symm⟩

theorem TEMPERATURE_RANGE_eq : TEMPERATURE_RANGE = (0, 2) := rfl

theorem TOP_P_RANGE_eq : TOP_P_RANGE = (0, 1) := rfl

theorem FREQUENCY_PENALTY_RANGE_eq : FREQUENCY_PENALTY_RANGE = (-2, 2) := rfl

theorem PRESENCE_PENALTY_RANGE_eq : PRESENCE_PENALTY_RANGE = (-2, 2) := rfl

/-! ## C3, C5, C6, C8, C10: the sampling extractor -/

/-- C3: when the vendor extension's greedy flag is true and temperature and
top_p are present and in range (with frequency/presence penalties valid),
extraction succeeds with `temperature = none` and `top_p = none`, passing
the two penalties through unchanged. -/
theorem C3_greedy_override (req : SamplingRequest) (nv : NvExt) (t p : ℚ)
    (hnv : req.nvext = some nv) (hg : nv.greed_sampling = some true)
    (ht : req.temperature = some t) (ht1 : 0 ≤ t) (ht2 : t ≤ 2)
    (hp : req.top_p = some p) (hp1 : 0 ≤ p) (hp2 : p ≤ 1)
    (hf : inRangeOpt req.frequency_penalty FREQUENCY_PENALTY_RANGE)
    (hpe : inRangeOpt req.presence_penalty PRESENCE_PENALTY_RANGE) :
    ∃ opts, extract_sampling_options req = Except.ok opts
      ∧ opts.temperature = none ∧ opts.top_p = none
      ∧ opts.frequency_penalty = req.frequency_penalty
      ∧ opts.presence_penalty = req.presence_penalty := by
  have hgreedy : greedyFlag req = true := by
    simp [greedyFlag, hnv, hg]
  have ht' : inRangeOpt req.temperature TEMPERATURE_RANGE := by
    intro x hx
    rw [ht, Option.some_inj] at hx
    subst hx
    rw [TEMPERATURE_RANGE_eq]
    exact ⟨ht1, ht2⟩
  have hp' : inRangeOpt req.top_p TOP_P_RANGE := by
    intro x hx
    rw [hp, Option.some_inj] at hx
    subst hx
    rw [TOP_P_RANGE_eq]
    exact ⟨hp1, hp2⟩
  exact ⟨_, extract_sampling_options_ok req ht' hp' hf hpe,
    by simp [hgreedy], by simp [hgreedy], rfl, rfl⟩

/-- Witness for C3 at `temperature = 0.7`, `top_p = 0.9`,
`frequency_penalty = 0.5`, `presence_penalty = none`, greedy extension. -/
theorem C3_greedy_override_witness :
    ∃ opts,
      extract_sampling_options
        { temperature := some (7 / 10)
          top_p := some (9 / 10)
          frequency_penalty := some (1 / 2)
          presence_penalty := none
          nvext := some { greed_sampling := some true, ignore_eos := none } }
        = Except.ok opts
      ∧ opts.temperature = none ∧ opts.top_p = none
      ∧ opts.frequency_penalty = some (1 / 2)
      ∧ opts.presence_penalty = none :=
  C3_greedy_override
    { temperature := some (7 / 10)
      top_p := some (9 / 10)
      frequency_penalty := some (1 / 2)
      presence_penalty := none
      nvext := some { greed_sampling := some true, ignore_eos := none } }
    { greed_sampling := some true, ignore_eos := none }
    (7 / 10) (9 / 10) rfl rfl rfl (by norm_num) (by norm_num)
    rfl (by norm_num) (by norm_num)
    (by intro x hx; rw [FREQUENCY_PENALTY_RANGE_eq]; rw [Option.some_inj] at hx; subst hx; norm_num)
    (by intro x hx; exact absurd hx (by simp))

/-- C5: the four scalars are validated against `[0, 2]`, `[0, 1]`,
`[-2, 2]`, `[-2, 2]` respectively, and extraction short-circuits on the
first out-of-range field in exactly that order, wrapping its error. -/
theorem C5_validation_order (req : SamplingRequest) (x : ℚ) :
    (req.temperature = some x → x < 0 ∨ 2 < x →
       extract_sampling_options req
         = Except.error (SamplingError.temperature (ValidationError.valueOutOfRange x 0 2)))
    ∧ (inRangeOpt req.temperature TEMPERATURE_RANGE →
       req.top_p = some x → x < 0 ∨ 1 < x →
       extract_sampling_options req
         = Except.error (SamplingError.top_p (ValidationError.valueOutOfRange x 0 1)))
    ∧ (inRangeOpt req.temperature TEMPERATURE_RANGE → inRangeOpt req.top_p TOP_P_RANGE →
       req.frequency_penalty = some x → x < -2 ∨ 2 < x →
       extract_sampling_options req
         = Except.error
             (SamplingError.frequency_penalty (ValidationError.valueOutOfRange x (-2) 2)))
    ∧ (inRangeOpt req.temperature TEMPERATURE_RANGE → inRangeOpt req.top_p TOP_P_RANGE →
       inRangeOpt req.frequency_penalty FREQUENCY_PENALTY_RANGE →
       req.presence_penalty = some x → x < -2 ∨ 2 < x →
       extract_sampling_options req
         = Except.error
             (SamplingError.presence_penalty (ValidationError.valueOutOfRange x (-2) 2))) := by
  refine ⟨fun hsome hout => ?_, fun h1 hsome hout => ?_,
    fun h1 h2 hsome hout => ?_, fun h1 h2 h3 hsome hout => ?_⟩
  · refine extract_sampling_options_err_temperature req _ ?_
    rw [hsome, TEMPERATURE_RANGE_eq]
    exact validate_range_some_err x (0, 2) hout
  · refine extract_sampling_options_err_top_p req _ _
      (validate_range_of_inRangeOpt _ _ h1) ?_
    rw [hsome, TOP_P_RANGE_eq]
    exact validate_range_some_err x (0, 1) hout
  · refine extract_sampling_options_err_frequency req _ _ _
      (validate_range_of_inRangeOpt _ _ h1) (validate_range_of_inRangeOpt _ _ h2) ?_
    rw [hsome, FREQUENCY_PENALTY_RANGE_eq]
    exact validate_range_some_err x (-2, 2) hout
  · refine extract_sampling_options_err_presence req _ _ _ _
      (validate_range_of_inRangeOpt _ _ h1) (validate_range_of_inRangeOpt _ _ h2)
      (validate_range_of_inRangeOpt _ _ h3) ?_
    rw [hsome, PRESENCE_PENALTY_RANGE_eq]
    exact validate_range_some_err x (-2, 2) hout

/-- Witness for C5: temperature `3` and top_p `5` are both out of range, and
the reported error is the temperature one (first failure wins). -/
theorem C5_validation_order_witness :
    extract_sampling_options
      { temperature := some 3, top_p := some 5, frequency_penalty := none
        presence_penalty := none, nvext := none }
      = Except.error (SamplingError.temperature (ValidationError.valueOutOfRange 3 0 2)) :=
  (C5_validation_order
    { temperature := some 3, top_p := some 5, frequency_penalty := none
      presence_penalty := none, nvext := none } 3).1 rfl (by norm_num)

/-- C6: on success the passthrough fields are all `none` and every present
scalar lies within its declared inclusive range. -/
theorem C6_success_invariants (req : SamplingRequest) (opts : SamplingOptions)
    (h : extract_sampling_options req = Except.ok opts) :
    opts.n = none ∧ opts.best_of = none ∧ opts.repetition_penalty = none
    ∧ opts.top_k = none ∧ opts.min_p = none ∧ opts.seed = none
    ∧ opts.use_beam_search = none ∧ opts.length_penalty = none
    ∧ inRangeOpt opts.temperature TEMPERATURE_RANGE
    ∧ inRangeOpt opts.top_p TOP_P_RANGE
    ∧ inRangeOpt opts.frequency_penalty FREQUENCY_PENALTY_RANGE
    ∧ inRangeOpt opts.presence_penalty PRESENCE_PENALTY_RANGE := by
  obtain ⟨hr1, hr2, hr3, hr4, heq⟩ := extract_sampling_options_ok_elim req opts h
  subst heq
  refine ⟨rfl, rfl, rfl, rfl, rfl, rfl, rfl, rfl, ?_, ?_, hr3, hr4⟩
  · intro x hx
    by_cases hg : greedyFlag req
    · simp [hg] at hx
    · simp only [hg, if_false, Bool.false_eq_true] at hx
      exact hr1 x hx
  · intro x hx
    by_cases hg : greedyFlag req
    · simp [hg] at hx
    · simp only [hg, if_false, Bool.false_eq_true] at hx
      exact hr2 x hx

/-- Witness for C6 at the all-absent request. -/
theorem C6_success_invariants_witness :
    (none : Option ℕ) = none ∧ (none : Option ℕ) = none ∧ (none : Option ℚ) = none
    ∧ (none : Option ℤ) = none ∧ (none : Option ℚ) = none ∧ (none : Option ℕ) = none
    ∧ (none : Option Bool) = none ∧ (none : Option ℚ) = none
    ∧ inRangeOpt none TEMPERATURE_RANGE
    ∧ inRangeOpt none TOP_P_RANGE
    ∧ inRangeOpt none FREQUENCY_PENALTY_RANGE
    ∧ inRangeOpt none PRESENCE_PENALTY_RANGE :=
  C6_success_invariants
    { temperature := none, top_p := none, frequency_penalty := none
      presence_penalty := none, nvext := none }
    { n := none, best_of := none, frequency_penalty := none, presence_penalty := none
      repetition_penalty := none, temperature := none, top_p := none, top_k := none
      min_p := none, seed := none, use_beam_search := none, length_penalty := none }
    rfl

/-- C8: extraction is idempotent — when every scalar is absent-or-in-range
and the vendor extension does not set the greedy flag, the extractor
reproduces exactly the input field values, all other fields absent. -/
theorem C8_extraction_idempotent (req : SamplingRequest)
    (hg : ∀ nv, req.nvext = some nv → nv.greed_sampling ≠ some true)
    (ht : inRangeOpt req.temperature TEMPERATURE_RANGE)
    (hp : inRangeOpt req.top_p TOP_P_RANGE)
    (hf : inRangeOpt req.frequency_penalty FREQUENCY_PENALTY_RANGE)
    (hpe : inRangeOpt req.presence_penalty PRESENCE_PENALTY_RANGE) :
    extract_sampling_options req = Except.ok
      { n := none
        best_of := none
        frequency_penalty := req.frequency_penalty
        presence_penalty := req.presence_penalty
        repetition_penalty := none
        temperature := req.temperature
        top_p := req.top_p
        top_k := none
        min_p := none
        seed := none
        use_beam_search := none
        length_penalty := none } := by
  have hgf : greedyFlag req = false := by
    unfold greedyFlag
    cases hnv : req.nvext with
    | none => rfl
    | some nv =>
        have hne := hg nv hnv
        cases hgs : nv.greed_sampling with
        | none => simp [hgs]
        | some b =>
            cases b with
            | false => simp [hgs]
            | true => exact absurd hgs hne
  rw [extract_sampling_options_ok req ht hp hf hpe, hgf]
  simp

/-- Witness for C8 at `temperature = 1`, `top_p = 1/2`, penalties `0`,
no vendor extension. -/
theorem C8_extraction_idempotent_witness :
    extract_sampling_options
      { temperature := some 1, top_p := some (1 / 2), frequency_penalty := some 0
        presence_penalty := some 0, nvext := none }
      = Except.ok
      { n := none, best_of := none, frequency_penalty := some 0
        presence_penalty := some 0, repetition_penalty := none
        temperature := some 1, top_p := some (1 / 2), top_k := none
        min_p := none, seed := none, use_beam_search := none, length_penalty := none } :=
  C8_extraction_idempotent
    { temperature := some 1, top_p := some (1 / 2), frequency_penalty := some 0
      presence_penalty := some 0, nvext := none }
    (by intro nv hnv; exact absurd hnv (by simp))
    (by intro x hx; rw [Option.some_inj] at hx; subst hx; rw [TEMPERATURE_RANGE_eq]; norm_num)
    (by intro x hx; rw [Option.some_inj] at hx; subst hx; rw [TOP_P_RANGE_eq]; norm_num)
    (by intro x hx; rw [Option.some_inj] at hx; subst hx
        rw [FREQUENCY_PENALTY_RANGE_eq]; norm_num)
    (by intro x hx; rw [Option.some_inj] at hx; subst hx
        rw [PRESENCE_PENALTY_RANGE_eq]; norm_num)

/-- C10: the greedy override does not bypass validation — with the greedy
flag set, an out-of-range present temperature (or top_p, when temperature
is valid) still fails with the corresponding wrapped validation error. -/
theorem C10_greedy_does_not_bypass_validation (req : SamplingRequest) (nv : NvExt) (x : ℚ)
    (hnv : req.nvext = some nv) (hg : nv.greed_sampling = some true) :
    (req.temperature = some x → x < 0 ∨ 2 < x →
       ∃ e, extract_sampling_options req = Except.error (SamplingError.temperature e))
    ∧ (inRangeOpt req.temperature TEMPERATURE_RANGE →
       req.top_p = some x → x < 0 ∨ 1 < x →
       ∃ e, extract_sampling_options req = Except.error (SamplingError.top_p e)) := by
  refine ⟨fun hsome hout => ?_, fun h1 hsome hout => ?_⟩
  · refine ⟨ValidationError.valueOutOfRange x 0 2,
      extract_sampling_options_err_temperature req _ ?_⟩
    rw [hsome, TEMPERATURE_RANGE_eq]
    exact validate_range_some_err x (0, 2) hout
  · refine ⟨ValidationError.valueOutOfRange x 0 1,
      extract_sampling_options_err_top_p req _ _
        (validate_range_of_inRangeOpt _ _ h1) ?_⟩
    rw [hsome, TOP_P_RANGE_eq]
    exact validate_range_some_err x (0, 1) hout

/-- Witness for C10: greedy flag set, temperature `5` out of range — the
extractor fails with the temperature validation error. -/
theorem C10_greedy_does_not_bypass_validation_witness :
    ∃ e, extract_sampling_options
      { temperature := some 5, top_p := some (1 / 2), frequency_penalty := none
        presence_penalty := none
        nvext := some { greed_sampling := some true, ignore_eos := none } }
      = Except.error (SamplingError.temperature e) :=
  (C10_greedy_does_not_bypass_validation
    { temperature := some 5, top_p := some (1 / 2), frequency_penalty := none
      presence_penalty := none
      nvext := some { greed_sampling := some true, ignore_eos := none } }
    { greed_sampling := some true, ignore_eos := none } 5 rfl rfl).1 rfl (by norm_num)

/-! ## C4: the stop-conditions extractor -/

/-- With no stop list, the extractor succeeds. -/
theorem extract_stop_conditions_none (req : StopRequest) (h : req.stop = none) :
    extract_stop_conditions req = Except.ok
      { max_tokens := req.max_tokens, min_tokens := req.min_tokens, stop := none
        stop_token_ids_hidden := none, ignore_eos := ignoreEosFlag req } := by
  simp only [extract_stop_conditions, h]

/-- With at most 4 stop strings, the extractor succeeds, returning them
unchanged. -/
theorem extract_stop_conditions_some_ok (req : StopRequest) (l : List String)
    (h : req.stop = some l) (hlen : l.length ≤ 4) :
    extract_stop_conditions req = Except.ok
      { max_tokens := req.max_tokens, min_tokens := req.min_tokens, stop := some l
        stop_token_ids_hidden := none, ignore_eos := ignoreEosFlag req } := by
  simp only [extract_stop_conditions, h]
  rw [if_neg (by omega)]

/-- With more than 4 stop strings, the extractor fails. -/
theorem extract_stop_conditions_some_err (req : StopRequest) (l : List String)
    (h : req.stop = some l) (hlen : 4 < l.length) :
    extract_stop_conditions req = Except.error StopError.tooManyStopSequences := by
  simp only [extract_stop_conditions, h]
  rw [if_pos hlen]

/-- C4: `extract_stop_conditions` fails (with the too-many-stop-sequences
error, the only error it can produce) iff the stop list is present and
longer than 4; with at most 4 stop strings present it succeeds returning
them in their original order; and on every success
`stop_token_ids_hidden` is absent. -/
theorem C4_stop_cardinality (req : StopRequest) :
    ((∃ e, extract_stop_conditions req = Except.error e)
        ↔ ∃ l, req.stop = some l ∧ 4 < l.length)
    ∧ (∀ e, extract_stop_conditions req = Except.error e
        → e = StopError.tooManyStopSequences)
    ∧ (∀ l, req.stop = some l → l.length ≤ 4 →
        ∃ sc, extract_stop_conditions req = Except.ok sc ∧ sc.stop = some l)
    ∧ (∀ sc, extract_stop_conditions req = Except.ok sc
        → sc.stop_token_ids_hidden = none) := by
  refine ⟨⟨?_, ?_⟩, fun e he => rfl, fun l hl hlen => ?_, fun sc hsc => ?_⟩
  · rintro ⟨e, he⟩
    cases hstop : req.stop with
    | none => rw [extract_stop_conditions_none req hstop] at he; exact absurd he (by simp)
    | some l =>
        by_cases hlen : 4 < l.length
        · exact ⟨l, rfl, hlen⟩
        · rw [extract_stop_conditions_some_ok req l hstop (by omega)] at he
          exact absurd he (by simp)
  · rintro ⟨l, hl, hlen⟩
    exact ⟨StopError.tooManyStopSequences, extract_stop_conditions_some_err req l hl hlen⟩
  · exact ⟨_, extract_stop_conditions_some_ok req l hl hlen, rfl⟩
  · cases hstop : req.stop with
    | none =>
        rw [extract_stop_conditions_none req hstop] at hsc
        cases hsc
        rfl
    | some l =>
        by_cases hlen : 4 < l.length
        · rw [extract_stop_conditions_some_err req l hstop hlen] at hsc
          exact absurd hsc (by simp)
        · rw [extract_stop_conditions_some_ok req l hstop (by omega)] at hsc
          cases hsc
          rfl

/-- Witness for C4: exactly four stop strings succeed in original order,
and five fail. -/
theorem C4_stop_cardinality_witness :
    (∃ sc, extract_stop_conditions
        { max_tokens := none, min_tokens := none
          stop := some ["a", "b", "c", "d"], nvext := none }
        = Except.ok sc ∧ sc.stop = some ["a", "b", "c", "d"])
    ∧ (∃ e, extract_stop_conditions
        { max_tokens := none, min_tokens := none
          stop := some ["a", "b", "c", "d", "e"], nvext := none }
        = Except.error e) :=
  ⟨(C4_stop_cardinality
      { max_tokens := none, min_tokens := none
        stop := some ["a", "b", "c", "d"], nvext := none }).2.2.1
      ["a", "b", "c", "d"] rfl (by decide),
   (C4_stop_cardinality
      { max_tokens := none, min_tokens := none
        stop := some ["a", "b", "c", "d", "e"], nvext := none }).1.2
      ⟨["a", "b", "c", "d", "e"], rfl, by decide⟩⟩
